import Mathlib

set_option maxRecDepth 4000

/-!
Verification development for the workerd `Socket` API core
(src/workerd/api/sockets.c++ and sockets.h).

The embedding models the socket lifecycle state machine: the two stream
halves, the single-resolution closed-signal, the proxy-status handler, the
half-close (EOF) handler and the STARTTLS upgrade. Asynchronous promise
continuations are modelled as explicit state-transition functions whose
I/O outcomes (success or failure of a cancel/abort/close operation, the
bytes available on an error-body stream) are passed in as parameters;
the relative order of synchronous steps and deferred continuations is
recorded as an explicit event trace where a claim depends on it.

Strings from the C++ side (kj::String, kj::StringPtr) are modelled as
lists of characters (`Bytes`), since kj strings are plain byte arrays.
-/

namespace WorkerdSockets

/-- kj strings are byte arrays; we model them as lists of characters. -/
abbrev Bytes := List Char

/-- Shorthand to write byte-string literals. -/
def bytes (s : String) : Bytes := s.toList

/-! ## The closed-signal completion object

Modelled from the spec: `closedSignal` is backed by a jsg/V8 promise
resolver (`closeFulfiller` in sockets.h), which is external to src/.
Per the spec it is a single-resolution completion: the first call to
resolve or reject wins, every later call is a silent no-op and never an
error (both functions below are total). -/

/-- State of the single-resolution closed-signal completion. -/
inductive SettleState where
  | unsettled
  | resolved
  | rejected (msg : Bytes)
deriving DecidableEq

/-- Modelled from the spec: resolving the completion succeeds only from the
unsettled state; a later call is a silent no-op. -/
def settleResolve : SettleState → SettleState
  | SettleState.unsettled => SettleState.resolved
  | s => s

/-- Modelled from the spec: rejecting the completion succeeds only from the
unsettled state; a later call is a silent no-op. -/
def settleReject (msg : Bytes) : SettleState → SettleState
  | SettleState.unsettled => SettleState.rejected msg
  | s => s

/-! ## Stream-half states and outcomes -/

/-- State of the readable half (ReadableStream) as this core drives it. -/
inductive ReadState where
  | live
  | canceled
  | detached
deriving DecidableEq

/-- State of the writable half (WritableStream) as this core drives it. -/
inductive WriteState where
  | live
  | closed
  | aborted
  | errored
  | sinkRemoved
deriving DecidableEq

/-- `WritableStreamController::isClosedOrClosing()` as consulted by
`Socket::maybeCloseWriteSide`. In this atomic-step model a close that
completes leaves the controller `closed`. -/
def isClosedOrClosing : WriteState → Bool
  | WriteState.closed => true
  | _ => false

/-- Outcome of an asynchronous stream operation (cancel/abort/close):
the promise either resolves or rejects with an error value. -/
inductive Outcome where
  | ok
  | err (msg : Bytes)
deriving DecidableEq

/-- Result of a read on a stream half. -/
inductive ReadResult where
  | data (chunk : Bytes)
  | eof
deriving DecidableEq

/-- Modelled from the spec: the ReadableStream implementation is outside
src/; a read half detached in final mode (startTls step 2) yields EOF with
no data, as does a cancelled half; a live half yields the available bytes. -/
def readFromHalf : ReadState → Bytes → ReadResult
  | ReadState.detached, _ => ReadResult.eof
  | ReadState.canceled, _ => ReadResult.eof
  | ReadState.live, avail =>
      if avail.isEmpty then ReadResult.eof else ReadResult.data avail

/-! ## Socket options (sockets.c++: `parseSecureTransport`, `getAllowHalfOpen`) -/

/-- `SecureTransportKind` from sockets.c++. -/
inductive SecureTransportKind where
  | OFF
  | STARTTLS
  | ON
deriving DecidableEq

/-- `SocketOptions` as consumed by sockets.c++ (`opts->secureTransport` is an
optional string, `o->allowHalfOpen` a bool defaulting to false). -/
structure SocketOptions where
  secureTransport : Option Bytes
  allowHalfOpen : Bool
deriving DecidableEq

/-- `parseSecureTransport` from sockets.c++ lines 45-57: a missing option
means OFF; the strings "off", "starttls", "on" map to the three kinds; any
other value throws a TypeError (modelled as `Except.error`). -/
def parseSecureTransport (opts : SocketOptions) : Except Bytes SecureTransportKind :=
  match opts.secureTransport with
  | none => Except.ok SecureTransportKind.OFF
  | some v =>
    if v = bytes "off" then Except.ok SecureTransportKind.OFF
    else if v = bytes "starttls" then Except.ok SecureTransportKind.STARTTLS
    else if v = bytes "on" then Except.ok SecureTransportKind.ON
    else Except.error (bytes "Unsupported value in secureTransport socket option: " ++ v)

/-- `getAllowHalfOpen` from sockets.c++ lines 59-66: absent options mean
`allowHalfOpen = false`. -/
def getAllowHalfOpen : Option SocketOptions → Bool
  | some o => o.allowHalfOpen
  | none => false

/-! ## Socket state -/

/-- The mutable state of one `Socket` object (sockets.h fields as driven by
sockets.c++). `eofHandlerInstalled` records whether `setupSocket` attached
the readable-EOF callback (`handleReadableEof`); `domain = none` models the
kj::String member after it has been moved out (null), `options = none`
models an absent or moved-out `jsg::Optional<SocketOptions>`. -/
structure SocketState where
  closedSignal : SettleState
  readableState : ReadState
  writableState : WriteState
  eofHandlerInstalled : Bool
  options : Option SocketOptions
  isSecureSocket : Bool
  domain : Option Bytes
  closureInProgress : Bool
deriving DecidableEq

/-- `setupSocket` from sockets.c++ lines 68-104: builds the streams, the
close fulfiller (unsettled) and attaches the EOF handler exactly when
`allowHalfOpen` is false. -/
def setupSocket (options : Option SocketOptions) (isSecureSocket : Bool)
    (domain : Option Bytes) : SocketState :=
  { closedSignal := SettleState.unsettled
    readableState := ReadState.live
    writableState := WriteState.live
    eofHandlerInstalled := !(getAllowHalfOpen options)
    options := options
    isSecureSocket := isSecureSocket
    domain := domain
    closureInProgress := false }

/-! ## Socket::close (sockets.c++ lines 188-199, sockets.h errorHandler) -/

/-- Modelled from the spec: `jsg::createTunneledException` (outside src/)
converts a JS error value into a kj::Exception delivered on the closed
signal; the model keeps the failure reason itself. -/
def createTunneledException (m : Bytes) : Bytes := m

/-- Result of `Socket::close`: the socket state after the promise chain has
run, plus the resolution of the promise that `close` itself returned. -/
structure CloseResult where
  state : SocketState
  promise : Outcome
deriving DecidableEq

/-- `Socket::close` from sockets.c++ lines 188-199. Both the readable cancel
and the writable abort are initiated immediately; the promise chain is
`cancelPromise.then(fun => abortPromise.then(fun => resolve), errorHandler)`.
The error handler (sockets.h lines 83-87) is attached to the outer `then`,
so it observes only a rejection of `cancelPromise`; a rejection of
`abortPromise` propagates out of the inner `then`, which has no error
handler, and therefore rejects the promise returned by `close` itself. -/
def socketClose (s : SocketState) (cancelOutcome abortOutcome : Outcome) : CloseResult :=
  match cancelOutcome with
  | Outcome.err m =>
    { state :=
        { s with readableState := ReadState.canceled
                 writableState := WriteState.aborted
                 closedSignal := settleReject (createTunneledException m) s.closedSignal }
      promise := Outcome.ok }
  | Outcome.ok =>
    match abortOutcome with
    | Outcome.ok =>
      { state :=
          { s with readableState := ReadState.canceled
                   writableState := WriteState.aborted
                   closedSignal := settleResolve s.closedSignal }
        promise := Outcome.ok }
    | Outcome.err m =>
      { state :=
          { s with readableState := ReadState.canceled
                   writableState := WriteState.aborted }
        promise := Outcome.err m }

/-! ## Half-close handler (sockets.c++ lines 295-326) -/

/-- `Socket::maybeCloseWriteSide` from sockets.c++ lines 304-326. If the
writable controller is already closed or closing, a no-op. Otherwise the
promise chain is `close(js).catch_(reject closedSignal).then(resolve
closedSignal)`: a failing close first rejects the fulfiller and the
recovered chain then attempts a resolve (a no-op on the already-rejected
fulfiller); a successful close resolves it. -/
def maybeCloseWriteSide (s : SocketState) (closeOutcome : Outcome) : SocketState :=
  if isClosedOrClosing s.writableState then s
  else
    match closeOutcome with
    | Outcome.ok =>
      { s with writableState := WriteState.closed
               closedSignal := settleResolve s.closedSignal }
    | Outcome.err m =>
      { s with writableState := WriteState.errored
               closedSignal := settleResolve (settleReject m s.closedSignal) }

/-! ## Proxy status handler (sockets.c++ lines 250-293) -/

/-- The tunnel-open status delivered to `handleProxyStatus`: the HTTP status
code, the optional error-body stream (with the bytes it will deliver) and
the optional CONTENT_LENGTH header value. -/
structure ConnectStatus where
  statusCode : Nat
  errorBody : Option Bytes
  contentLength : Option Bytes
deriving DecidableEq

/-- One decimal digit. -/
def digitVal (c : Char) : Option Nat :=
  if '0' ≤ c ∧ c ≤ '9' then some (c.toNat - '0'.toNat) else none

/-- Accumulate decimal digits; fails on any non-digit. -/
def parseDigitsAux : Bytes → Nat → Option Nat
  | [], acc => some acc
  | c :: rest, acc =>
    match digitVal c with
    | some d => parseDigitsAux rest (acc * 10 + d)
    | none => none

/-- A non-empty all-digit string as a natural number. -/
def parseDigits : Bytes → Option Nat
  | [] => none
  | cs => parseDigitsAux cs 0

/-- kj `StringPtr::tryParseAs<int64_t>` (kj library, external dependency):
strtoll in base 10 with the requirement that the whole string is consumed
and the value fits in a signed 64-bit integer; an empty string fails. It
accepts an optional leading sign, so negative values parse. (HTTP header
values reach this call already trimmed by the kj HTTP layer, so the model
omits strtoll acceptance of leading whitespace.) -/
def tryParseAsInt64 (s : Bytes) : Option Int :=
  match s with
  | [] => none
  | '-' :: rest =>
    (parseDigits rest).bind fun n =>
      if (n : Int) ≤ 2 ^ 63 then some (-(n : Int)) else none
  | '+' :: rest =>
    (parseDigits rest).bind fun n =>
      if (n : Int) < 2 ^ 63 then some (n : Int) else none
  | _ =>
    (parseDigits s).bind fun n =>
      if (n : Int) < 2 ^ 63 then some (n : Int) else none

/-- The `JSG_EXCEPTION(Error)` tag prefixed to exceptions built in
`handleProxyStatus`. -/
def jsgErrorTag : Bytes := bytes "jsg.Error"

/-- The generic failure `kj::str(JSG_EXCEPTION(Error) ": proxy request
failed")` from sockets.c++ lines 284-285. -/
def proxyRequestFailedMsg : Bytes := jsgErrorTag ++ bytes ": proxy request failed"

/-- The declared error-body size used by `handleProxyStatus` (sockets.c++
lines 259-266): only for status 403, only when the error-body stream is
present, the CONTENT_LENGTH header (absent modelled as the `orDefault("")`
empty string) parsed with `tryParseAs<int64_t>`. -/
def proxyErrorBodySize (st : ConnectStatus) : Option Int :=
  if st.statusCode = 403 then
    match st.errorBody with
    | some _ => tryParseAsInt64 (st.contentLength.getD [])
    | none => none
  else none

/-- The synchronous part of the `handleProxyStatus` continuation
(sockets.c++ lines 254-290). A 2xx status does nothing. Otherwise
`closureInProgress` is recomputed: it becomes true exactly when the
403/error-body/Content-Length path schedules the body read; when it stays
false the generic failure path rejects the fulfiller and forcibly
cancels/aborts both halves. -/
def handleProxyStatusSync (s : SocketState) (st : ConnectStatus) : SocketState :=
  if st.statusCode < 200 ∨ 300 ≤ st.statusCode then
    if (proxyErrorBodySize st).isSome then
      { s with closureInProgress := true }
    else
      { s with closureInProgress := false
               closedSignal := settleReject proxyRequestFailedMsg s.closedSignal
               readableState := ReadState.canceled
               writableState := WriteState.aborted }
  else s

/-- Modelled from the spec: kj `AsyncInputStream::tryRead(buf, 1, max)`
(kj library, external dependency) reads at most `max` bytes, fewer only
when the stream is exhausted. -/
def tryReadUpTo (body : Bytes) (maxBytes : Nat) : Bytes := body.take maxBytes

/-- The deferred continuation of the 403 error-body read (sockets.c++ lines
270-278): the buffer was allocated with `kj::heapString(size)` and only its
first `amount` bytes are filled by `tryRead`, so the exception message is
`"jsg.Error: "` followed by the bytes read and then the untouched
(uninitialized) tail of the buffer, modelled by the arbitrary `junk`
parameter. It then rejects the fulfiller and cancels/aborts both halves. -/
def proxyBodyContinuation (s : SocketState) (size : Nat) (body : Bytes)
    (junk : Bytes) : SocketState :=
  { s with closedSignal :=
      settleReject (jsgErrorTag ++ bytes ": " ++ tryReadUpTo body size ++ junk) s.closedSignal
           readableState := ReadState.canceled
           writableState := WriteState.aborted }

/-! ## Hostname validation and connect (sockets.c++ lines 15-43, 108-172) -/

/-- The character check inside the loop of `isValidHost` (sockets.c++ lines
26-41): the punctuation cases plus the three alphanumeric ranges. -/
def isValidHostChar (c : Char) : Bool :=
  if c = '-' ∨ c = '.' ∨ c = '_' ∨ c = '[' ∨ c = ']' ∨ c = ':' then true
  else if ('a' ≤ c ∧ c ≤ 'z') ∨ ('A' ≤ c ∧ c ≤ 'Z') ∨ ('0' ≤ c ∧ c ≤ '9') then true
  else false

/-- `isValidHost` from sockets.c++ lines 15-43: size in [1, 255] and every
byte in the permitted set. -/
def isValidHost (host : Bytes) : Bool :=
  if host.length > 255 || host.length == 0 then false
  else host.all isValidHostChar

/-- The address string that `connectImplNoOutputLock` (sockets.c++ lines
129-138) builds for a structured `SocketAddress`:
`kj::str(record.hostname, ":", record.port)`. -/
def recordAddressStr (hostname : Bytes) (port : Nat) : Bytes :=
  hostname ++ ':' :: Nat.toDigits 10 port

/-- Whether `connectImplNoOutputLock` passes the address-validation stage
(sockets.c++ lines 140-141) for a structured `SocketAddress`: the
`JSG_REQUIRE(isValidHost(addressStr), ...)` check is applied to the full
`hostname:port` string; the hostname itself is never validated separately
(the remaining steps of connect do not depend on the address). -/
def connectAcceptsRecord (hostname : Bytes) (port : Nat) : Bool :=
  isValidHost (recordAddressStr hostname port)

/-! ## startTls (sockets.c++ lines 201-248) -/

/-- `TlsOptions` as consumed by `startTls`. -/
structure TlsOptions where
  expectedServerHostname : Option Bytes
deriving DecidableEq

/-- The message of the two `JSG_REQUIRE`/`JSG_FAIL_REQUIRE` calls guarding
the secureTransport mode (sockets.c++ lines 205-212). -/
def invalidOptKindMsg : Bytes :=
  bytes "The `secureTransport` socket option must be set to 'starttls' for startTls to be used."

/-- Observable steps of a successful `startTls`, in execution order.
`flushStarted` and `returnNewSocket` happen synchronously inside the call;
the remaining steps run in the deferred continuation of
`writable->flush(js).then(...)` once the flush completes. -/
inductive TlsEvent where
  | flushStarted
  | returnNewSocket
  | removeSink
  | detachReadable
  | resolveOldClosed
  | invokeTlsStarter (hostname : Bytes)
deriving DecidableEq

/-- The synchronous moves performed on the old socket by `startTls` before
it returns: `kj::mv(options)` and `kj::mv(domain)` at sockets.c++ lines
246-247 leave the old members null. -/
def startTlsSyncOld (s : SocketState) : SocketState :=
  { s with options := none, domain := none }

/-- The deferred flush continuation of `startTls` (sockets.c++ lines
222-241) as it affects the old socket: `writable->removeSink(js)`,
`readable->detach(js, true)` and `closeFulfiller.resolver.resolve()`. -/
def startTlsContinuationOld (s : SocketState) : SocketState :=
  { s with writableState := WriteState.sinkRemoved
           readableState := ReadState.detached
           closedSignal := settleResolve s.closedSignal }

/-- Everything a successful `startTls` produces: the new socket handed back
to the caller, the old socket right after the synchronous part returns, the
old socket after the flush continuation has run, the hostname passed to the
TLS starter, and the ordered event trace. -/
structure StartTlsOk where
  newSocket : SocketState
  oldAfterSync : SocketState
  oldAfterFlush : SocketState
  acceptedHostname : Bytes
  events : List TlsEvent
deriving DecidableEq

/-- The `acceptedHostname` computation of sockets.c++ lines 228-233. -/
def startTlsAccepted (dom : Bytes) (tlsOptions : Option TlsOptions) : Bytes :=
  match tlsOptions with
  | some tlsOpts =>
    match tlsOpts.expectedServerHostname with
    | some h => h
    | none => dom
  | none => dom

/-- `Socket::startTls` from sockets.c++ lines 201-248. The three guards run
first, in source order, before any mutation: not already secure, domain not
yet consumed, and options present with secureTransport mode `starttls`
(`parseSecureTransport` itself throwing on an unrecognized value). On
success the accepted hostname is `tlsOptions.expectedServerHostname` when
supplied, else the captured domain; the new socket is built by
`setupSocket` with the moved options and domain and `isSecureSocket =
true`, and is returned before the flush continuation runs. -/
def startTls (s : SocketState) (tlsOptions : Option TlsOptions) :
    Except Bytes StartTlsOk :=
  if s.isSecureSocket then Except.error (bytes "Cannot startTls on a TLS socket.")
  else
    match s.domain with
    | none => Except.error (bytes "startTls can only be called once.")
    | some dom =>
      match s.options with
      | none => Except.error invalidOptKindMsg
      | some opts =>
        match parseSecureTransport opts with
        | Except.error e => Except.error e
        | Except.ok SecureTransportKind.STARTTLS =>
          Except.ok
            { newSocket := setupSocket (some opts) true (some dom)
              oldAfterSync := startTlsSyncOld s
              oldAfterFlush := startTlsContinuationOld (startTlsSyncOld s)
              acceptedHostname := startTlsAccepted dom tlsOptions
              events :=
                [TlsEvent.flushStarted, TlsEvent.returnNewSocket,
                 TlsEvent.removeSink, TlsEvent.detachReadable,
                 TlsEvent.resolveOldClosed,
                 TlsEvent.invokeTlsStarter (startTlsAccepted dom tlsOptions)] }
        | Except.ok _ => Except.error invalidOptKindMsg

/-! ## The resolution triggers of the closed-signal

The five triggers the spec enumerates, as one step relation. The proxy
rejection contributes two steps (the synchronous status continuation and
the deferred error-body read), and `readEof` only has an effect when
`setupSocket` installed the EOF handler. Every step is a total function:
no resolution attempt can raise an error. -/

inductive Trigger where
  | explicitClose (cancelOutcome abortOutcome : Outcome)
  | writeDisconnect
  | proxyStatus (st : ConnectStatus)
  | proxyBodyDone (size : Nat) (body junk : Bytes)
  | readEof (closeOutcome : Outcome)
  | upgradeFlushDone
deriving DecidableEq

/-- One resolution trigger firing on a socket. `writeDisconnect` is the
constructor-installed listener of sockets.h lines 33-37; `upgradeFlushDone`
is the startTls flush continuation acting on the old socket. -/
def applyTrigger (s : SocketState) : Trigger → SocketState
  | Trigger.explicitClose c a => (socketClose s c a).state
  | Trigger.writeDisconnect => { s with closedSignal := settleResolve s.closedSignal }
  | Trigger.proxyStatus st => handleProxyStatusSync s st
  | Trigger.proxyBodyDone size body junk => proxyBodyContinuation s size body junk
  | Trigger.readEof o => if s.eofHandlerInstalled then maybeCloseWriteSide s o else s
  | Trigger.upgradeFlushDone => startTlsContinuationOld s

/-- A sequence of triggers firing in order. -/
def runTriggers (s : SocketState) (ts : List Trigger) : SocketState :=
  ts.foldl applyTrigger s

/-! ## Reachable socket states (for the assertion claim)

A slight over-approximation of the states a socket object can be in: any
`setupSocket` result, any trigger applied to a reachable state, and the
old/new sockets produced by `startTls` on a reachable state (included
unconditionally, which only enlarges the set). -/

inductive Reachable : SocketState → Prop where
  | setup (options : Option SocketOptions) (isSecureSocket : Bool)
      (domain : Option Bytes) : Reachable (setupSocket options isSecureSocket domain)
  | step (s : SocketState) (t : Trigger) : Reachable s → Reachable (applyTrigger s t)
  | tlsOldSocket (s : SocketState) : Reachable s → Reachable (startTlsSyncOld s)
  | tlsNewSocket (s : SocketState) : Reachable s →
      Reachable (setupSocket s.options true s.domain)

/-! ## Sample states used by concrete witnesses and counterexamples -/

/-- A plain socket as built by a successful connect with no options. -/
def sampleBase : SocketState := setupSocket none false (some (bytes "example.com"))

/-- Options selecting the starttls mode. -/
def sampleOpts : SocketOptions :=
  { secureTransport := some (bytes "starttls"), allowHalfOpen := false }

/-- A non-secure socket eligible for `startTls`. -/
def sampleStarttlsSocket : SocketState :=
  setupSocket (some sampleOpts) false (some (bytes "example.com"))

/-- The record `startTls sampleStarttlsSocket none` produces. -/
def sampleStartTlsOk : StartTlsOk :=
  { newSocket := setupSocket (some sampleOpts) true (some (bytes "example.com"))
    oldAfterSync := startTlsSyncOld sampleStarttlsSocket
    oldAfterFlush := startTlsContinuationOld (startTlsSyncOld sampleStarttlsSocket)
    acceptedHostname := bytes "example.com"
    events :=
      [TlsEvent.flushStarted, TlsEvent.returnNewSocket, TlsEvent.removeSink,
       TlsEvent.detachReadable, TlsEvent.resolveOldClosed,
       TlsEvent.invokeTlsStarter (bytes "example.com")] }

/-- An already-secure socket (as returned by a prior upgrade). -/
def sampleSecureSocket : SocketState :=
  setupSocket (some sampleOpts) true (some (bytes "example.com"))

/-- Options selecting half-open mode. -/
def sampleHalfOpenOpts : SocketOptions :=
  { secureTransport := none, allowHalfOpen := true }

/-- A socket whose closed-signal has already been resolved. -/
def sampleSettled : SocketState :=
  { sampleBase with closedSignal := SettleState.resolved }

/-- Whether the option check of `startTls` (sockets.c++ lines 205-212)
passes: options present and `parseSecureTransport` yielding STARTTLS. -/
def startTlsModeOk : Option SocketOptions → Bool
  | none => false
  | some opts =>
    match parseSecureTransport opts with
    | Except.ok SecureTransportKind.STARTTLS => true
    | _ => false

/-! ## Helper lemmas -/

theorem settleResolve_of_settled {s : SettleState} (h : s ≠ SettleState.unsettled) :
    settleResolve s = s := by
  cases s with
  | unsettled => exact absurd rfl h
  | resolved => rfl
  | rejected m => rfl

theorem settleReject_of_settled (m : Bytes) {s : SettleState}
    (h : s ≠ SettleState.unsettled) : settleReject m s = s := by
  cases s with
  | unsettled => exact absurd rfl h
  | resolved => rfl
  | rejected m2 => rfl

theorem applyTrigger_closedSignal_of_settled (s : SocketState) (t : Trigger)
    (h : s.closedSignal ≠ SettleState.unsettled) :
    (applyTrigger s t).closedSignal = s.closedSignal := by
  cases t with
  | explicitClose c a =>
    cases c with
    | err m => simp [applyTrigger, socketClose, settleReject_of_settled _ h]
    | ok =>
      cases a with
      | ok => simp [applyTrigger, socketClose, settleResolve_of_settled h]
      | err m => simp [applyTrigger, socketClose]
  | writeDisconnect => simp [applyTrigger, settleResolve_of_settled h]
  | proxyStatus st =>
    simp only [applyTrigger, handleProxyStatusSync]
    split
    · split
      · rfl
      · simp [settleReject_of_settled _ h]
    · rfl
  | proxyBodyDone size body junk =>
    simp [applyTrigger, proxyBodyContinuation, settleReject_of_settled _ h]
  | readEof o =>
    simp only [applyTrigger]
    split
    · simp only [maybeCloseWriteSide]
      split
      · rfl
      · cases o with
        | ok => simp [settleResolve_of_settled h]
        | err m => simp [settleReject_of_settled m h, settleResolve_of_settled h]
    · rfl
  | upgradeFlushDone =>
    simp [applyTrigger, startTlsContinuationOld, settleResolve_of_settled h]

theorem applyTrigger_preserves_config (s : SocketState) (t : Trigger) :
    (applyTrigger s t).options = s.options ∧
    (applyTrigger s t).eofHandlerInstalled = s.eofHandlerInstalled := by
  cases t with
  | explicitClose c a => cases c <;> cases a <;> simp [applyTrigger, socketClose]
  | writeDisconnect => simp [applyTrigger]
  | proxyStatus st =>
    simp only [applyTrigger, handleProxyStatusSync]
    split
    · split <;> simp
    · simp
  | proxyBodyDone size body junk => simp [applyTrigger, proxyBodyContinuation]
  | readEof o =>
    simp only [applyTrigger]
    split
    · simp only [maybeCloseWriteSide]
      split
      · simp
      · cases o <;> simp
    · simp
  | upgradeFlushDone => simp [applyTrigger, startTlsContinuationOld]

theorem startTls_ok_inv (s : SocketState) (tlsOpts : Option TlsOptions) (r : StartTlsOk)
    (h : startTls s tlsOpts = Except.ok r) :
    r.oldAfterSync = startTlsSyncOld s ∧
    r.oldAfterFlush = startTlsContinuationOld (startTlsSyncOld s) ∧
    r.newSocket.isSecureSocket = true ∧
    r.events =
      [TlsEvent.flushStarted, TlsEvent.returnNewSocket, TlsEvent.removeSink,
       TlsEvent.detachReadable, TlsEvent.resolveOldClosed,
       TlsEvent.invokeTlsStarter r.acceptedHostname] := by
  unfold startTls at h
  split at h
  · exact absurd h (by simp)
  · split at h
    · exact absurd h (by simp)
    · split at h
      · exact absurd h (by simp)
      · split at h
        · exact absurd h (by simp)
        · injection h with h
          subst h
          refine ⟨rfl, rfl, rfl, rfl⟩
        · exact absurd h (by simp)

/-! ## Claim theorems -/

/-- C1: once the closed-signal is settled, every later trigger (explicit
close, remote write-disconnect, proxy rejection in both its synchronous and
deferred error-body steps, half-close completion, upgrade) leaves it
unchanged: the first resolver to run wins and all later resolution attempts
are silent no-ops. The step function `applyTrigger` is total, so no attempt
is ever an error. -/
theorem closed_signal_settles_once (s : SocketState) (ts : List Trigger)
    (h : s.closedSignal ≠ SettleState.unsettled) :
    (runTriggers s ts).closedSignal = s.closedSignal := by
  induction ts generalizing s with
  | nil => rfl
  | cons t rest ih =>
    have hstep := applyTrigger_closedSignal_of_settled s t h
    have hne : (applyTrigger s t).closedSignal ≠ SettleState.unsettled := by
      rw [hstep]; exact h
    show (runTriggers (applyTrigger s t) rest).closedSignal = s.closedSignal
    rw [ih (applyTrigger s t) hne, hstep]

/-- Witness for C1: a concrete settled socket run through one trigger of
each kind keeps its resolved closed-signal. -/
theorem closed_signal_settles_once_witness :
    (runTriggers sampleSettled
      [Trigger.writeDisconnect,
       Trigger.explicitClose Outcome.ok Outcome.ok,
       Trigger.proxyStatus { statusCode := 503, errorBody := none, contentLength := none },
       Trigger.proxyBodyDone 3 (bytes "abc") [],
       Trigger.readEof (Outcome.err (bytes "boom")),
       Trigger.upgradeFlushDone]).closedSignal = sampleSettled.closedSignal :=
  closed_signal_settles_once sampleSettled _ (by decide)

/-- C2 counterexample: with the readable cancel succeeding and the writable
abort failing, the promise returned by `close` itself rejects with the
abort failure and the closed-signal is left unsettled, contradicting the
claim that `close` never rejects and that either failure is delivered on
the closed-signal. -/
theorem close_abort_failure_cx :
    (socketClose sampleBase Outcome.ok (Outcome.err (bytes "abort failed"))).promise
        = Outcome.err (bytes "abort failed") ∧
    (socketClose sampleBase Outcome.ok (Outcome.err (bytes "abort failed"))).state.closedSignal
        = SettleState.unsettled :=
  ⟨rfl, rfl⟩

/-- C2 (amended): `close` cancels the read half and aborts the write half;
when both succeed it resolves the closed-signal with success and its own
promise resolves; when the cancel fails, the failure is tunneled into a
rejection of the closed-signal and the promise returned by `close` still
resolves; but when the cancel succeeds and the abort fails, the promise
returned by `close` rejects with the abort failure and the closed-signal is
not settled by `close` (the error handler is attached only to the cancel
promise). -/
theorem close_behavior (s : SocketState) (m : Bytes)
    (h : s.closedSignal = SettleState.unsettled) :
    ((socketClose s Outcome.ok Outcome.ok).state.closedSignal = SettleState.resolved ∧
      (socketClose s Outcome.ok Outcome.ok).promise = Outcome.ok) ∧
    (∀ a : Outcome,
      (socketClose s (Outcome.err m) a).state.closedSignal
          = SettleState.rejected (createTunneledException m) ∧
      (socketClose s (Outcome.err m) a).promise = Outcome.ok) ∧
    ((socketClose s Outcome.ok (Outcome.err m)).state.closedSignal = SettleState.unsettled ∧
      (socketClose s Outcome.ok (Outcome.err m)).promise = Outcome.err m) ∧
    (∀ c a : Outcome,
      (socketClose s c a).state.readableState = ReadState.canceled ∧
      (socketClose s c a).state.writableState = WriteState.aborted) := by
  refine ⟨⟨by simp [socketClose, h, settleResolve], rfl⟩,
          fun a => ⟨by simp [socketClose, h, settleReject], rfl⟩,
          ⟨by simp [socketClose, h], rfl⟩,
          fun c a => by cases c <;> cases a <;> simp [socketClose]⟩

/-- Witness for C2 (amended) at a concrete socket and failure message. -/
theorem close_behavior_witness :
    (socketClose sampleBase Outcome.ok Outcome.ok).state.closedSignal
        = SettleState.resolved :=
  (close_behavior sampleBase (bytes "boom") rfl).1.1

/-- C3: evaluation at the failing input. The Content-Length value "-1"
parses under `tryParseAs<int64_t>`, so the 403 error-body path is taken
with a negative declared size (at which point the code allocates
`kj::heapString(-1)`); the claim and spec require the path only for
non-negative values. The remaining conjuncts confirm the claimed behavior
on a well-formed non-negative input: the read is bounded by the declared
length and the rejection message contains the decoded body text. -/
theorem proxy_negative_content_length_bug :
    tryParseAsInt64 (bytes "-1") = some (-1) ∧
    proxyErrorBodySize
        { statusCode := 403, errorBody := some (bytes "denied"),
          contentLength := some (bytes "-1") } = some (-1) ∧
    ((-1 : Int) < 0) ∧
    (handleProxyStatusSync sampleBase
        { statusCode := 403, errorBody := some (bytes "denied"),
          contentLength := some (bytes "-1") }).closureInProgress = true ∧
    (handleProxyStatusSync sampleBase
        { statusCode := 403, errorBody := some (bytes "denied"),
          contentLength := some (bytes "-1") }).closedSignal = SettleState.unsettled ∧
    (tryReadUpTo (bytes "blocked: policy X") 17).length ≤ 17 ∧
    (proxyBodyContinuation sampleBase 17 (bytes "blocked: policy X") []).closedSignal
        = SettleState.rejected (bytes "jsg.Error: blocked: policy X") := by
  refine ⟨rfl, rfl, by decide, rfl, rfl, by decide, by decide⟩

/-- C4: a 2xx tunnel status is a no-op; every other status on which the
structured error-body path is not taken rejects the closed-signal with the
generic "proxy request failed" failure and cancels/aborts both halves; and
when the error-body read has been scheduled (`closureInProgress`), the
generic path does not run, leaving the closed-signal untouched. -/
theorem proxy_status_dispatch (s : SocketState) (st : ConnectStatus)
    (h : s.closedSignal = SettleState.unsettled) :
    (200 ≤ st.statusCode ∧ st.statusCode < 300 → handleProxyStatusSync s st = s) ∧
    ((st.statusCode < 200 ∨ 300 ≤ st.statusCode) → proxyErrorBodySize st = none →
      (handleProxyStatusSync s st).closedSignal
          = SettleState.rejected proxyRequestFailedMsg ∧
      (handleProxyStatusSync s st).readableState = ReadState.canceled ∧
      (handleProxyStatusSync s st).writableState = WriteState.aborted) ∧
    ((proxyErrorBodySize st).isSome →
      (handleProxyStatusSync s st).closedSignal = s.closedSignal ∧
      (handleProxyStatusSync s st).closureInProgress = true) := by
  refine ⟨?_, ?_, ?_⟩
  · intro h2xx
    have : ¬(st.statusCode < 200 ∨ 300 ≤ st.statusCode) := by omega
    simp [handleProxyStatusSync, this]
  · intro hrej hnone
    simp [handleProxyStatusSync, hrej, hnone, h, settleReject]
  · intro hsome
    have h403 : st.statusCode = 403 := by
      by_contra hne
      simp [proxyErrorBodySize, hne] at hsome
    have hrej : st.statusCode < 200 ∨ 300 ≤ st.statusCode := by omega
    simp [handleProxyStatusSync, hrej, hsome]

/-- Witness for C4 at concrete statuses. -/
theorem proxy_status_dispatch_witness :
    handleProxyStatusSync sampleBase
        { statusCode := 204, errorBody := none, contentLength := none } = sampleBase :=
  (proxy_status_dispatch sampleBase
    { statusCode := 204, errorBody := none, contentLength := none } rfl).1 (by decide)

/-- C5 counterexample: on a concrete upgradeable socket, `startTls`
succeeds, the only event preceding `returnNewSocket` in the execution trace
is the start of the write flush, and at the moment the new socket is
returned the old closed-signal is still unsettled — so the old socket
closed-signal is not resolved before the new socket is returned. -/
theorem starttls_resolution_order_cx :
    startTls sampleStarttlsSocket none = Except.ok sampleStartTlsOk ∧
    sampleStartTlsOk.events.takeWhile
        (fun e => !(decide (e = TlsEvent.returnNewSocket))) = [TlsEvent.flushStarted] ∧
    sampleStartTlsOk.oldAfterSync.closedSignal = SettleState.unsettled := by
  refine ⟨rfl, by decide, rfl⟩

/-- C5 (amended): when `startTls` succeeds, the new socket is returned
first; the old closed-signal is resolved (with success, when not already
settled) only in the deferred write-flush continuation, after the return
but before the TLS upgrade callback is invoked; after that continuation the
old read half is detached and every read on it yields EOF with no data. -/
theorem starttls_success_effects (s : SocketState) (tlsOpts : Option TlsOptions)
    (r : StartTlsOk) (h : startTls s tlsOpts = Except.ok r) :
    r.events =
      [TlsEvent.flushStarted, TlsEvent.returnNewSocket, TlsEvent.removeSink,
       TlsEvent.detachReadable, TlsEvent.resolveOldClosed,
       TlsEvent.invokeTlsStarter r.acceptedHostname] ∧
    r.oldAfterSync.closedSignal = s.closedSignal ∧
    r.oldAfterFlush.closedSignal = settleResolve s.closedSignal ∧
    (s.closedSignal = SettleState.unsettled →
      r.oldAfterFlush.closedSignal = SettleState.resolved) ∧
    r.oldAfterFlush.readableState = ReadState.detached ∧
    (∀ avail : Bytes, readFromHalf ReadState.detached avail = ReadResult.eof) ∧
    r.newSocket.isSecureSocket = true := by
  obtain ⟨hsync, hflush, hsec, hev⟩ := startTls_ok_inv s tlsOpts r h
  refine ⟨hev, ?_, ?_, ?_, ?_, fun avail => rfl, hsec⟩
  · rw [hsync]; rfl
  · rw [hflush]; rfl
  · intro hu; rw [hflush]; simp [startTlsContinuationOld, startTlsSyncOld, hu, settleResolve]
  · rw [hflush]; rfl

/-- Witness for C5 (amended) at the concrete upgradeable socket. -/
theorem starttls_success_effects_witness :
    sampleStartTlsOk.oldAfterFlush.closedSignal = SettleState.resolved :=
  (starttls_success_effects sampleStarttlsSocket none sampleStartTlsOk rfl).2.2.2.1 rfl

/-- C6: `startTls` fails synchronously (before any mutation: the guards are
the first statements of the function, and the model is a pure function of
the unchanged input state) whenever the socket is already secure, its
domain has been consumed by a prior upgrade, or the options are absent or
their secureTransport mode is not starttls; in particular it fails on any
socket returned by a prior successful `startTls`, since that socket is
constructed secure. -/
theorem starttls_precondition_failures (s : SocketState) (tlsOpts : Option TlsOptions)
    (h : s.isSecureSocket = true ∨ s.domain = none ∨ startTlsModeOk s.options = false ∨
         ∃ s0 o0 r, startTls s0 o0 = Except.ok r ∧ s = r.newSocket) :
    ∃ e, startTls s tlsOpts = Except.error e := by
  have hsecCase : s.isSecureSocket = true → ∃ e, startTls s tlsOpts = Except.error e :=
    fun hsec => ⟨bytes "Cannot startTls on a TLS socket.", by simp [startTls, hsec]⟩
  rcases h with hsec | hdom | hmode | hnew
  · exact hsecCase hsec
  · cases hsec : s.isSecureSocket with
    | true => exact hsecCase hsec
    | false => exact ⟨bytes "startTls can only be called once.", by simp [startTls, hsec, hdom]⟩
  · cases hsec : s.isSecureSocket with
    | true => exact hsecCase hsec
    | false =>
      cases hdom : s.domain with
      | none =>
        exact ⟨bytes "startTls can only be called once.", by simp [startTls, hsec, hdom]⟩
      | some dom =>
        cases hopt : s.options with
        | none => exact ⟨invalidOptKindMsg, by simp [startTls, hsec, hdom, hopt]⟩
        | some opts =>
          cases hp : parseSecureTransport opts with
          | error e => exact ⟨e, by simp [startTls, hsec, hdom, hopt, hp]⟩
          | ok kind =>
            cases kind with
            | STARTTLS => exact absurd hmode (by simp [startTlsModeOk, hopt, hp])
            | OFF => exact ⟨invalidOptKindMsg, by simp [startTls, hsec, hdom, hopt, hp]⟩
            | ON => exact ⟨invalidOptKindMsg, by simp [startTls, hsec, hdom, hopt, hp]⟩
  · obtain ⟨s0, o0, r, hok, hs⟩ := hnew
    subst hs
    exact hsecCase (startTls_ok_inv s0 o0 r hok).2.2.1

/-- Witness for C6: `startTls` on the concrete already-secure socket fails. -/
theorem starttls_precondition_failures_witness :
    (startTls sampleSecureSocket none).toOption = none := by
  obtain ⟨e, he⟩ := starttls_precondition_failures sampleSecureSocket none (Or.inl rfl)
  rw [he]
  rfl

/-- C7 counterexample: the structured address with empty hostname and port
80 passes the address validation of connect (the validator sees the full
":80" string), even though the empty hostname itself fails the validator —
refuting both that every accepted address has a hostname passing the
validator and that every address with an invalid hostname fails. -/
theorem connect_empty_hostname_cx :
    connectAcceptsRecord [] 80 = true ∧ isValidHost [] = false := by
  refine ⟨by decide, by decide⟩

/-- C7 (amended): connect applies `isValidHost` to the full address string
(for a structured address, `hostname:port`), not to the hostname alone;
the validator itself enforces length in [1, 255] and the permitted
character set, so the empty address string and a 256-character string of
letters still fail while a 255-character one passes. -/
theorem connect_validator_on_address_string :
    (∀ hostname port, connectAcceptsRecord hostname port
        = isValidHost (hostname ++ ':' :: Nat.toDigits 10 port)) ∧
    isValidHost [] = false ∧
    isValidHost (List.replicate 256 'a') = false ∧
    isValidHost (List.replicate 255 'a') = true := by
  refine ⟨fun hostname port => rfl, by decide, by decide, by decide⟩

/-- C8: on a socket whose EOF handler is installed (which `setupSocket`
does exactly when `allowHalfOpen` is false), read-EOF is a no-op when the
write half is already closed or closing; otherwise a successful close of
the write half resolves the closed-signal with success and a failing close
rejects it with that failure. -/
theorem half_close_eof_behavior (s : SocketState) (o : Outcome) (m : Bytes)
    (hInst : s.eofHandlerInstalled = true)
    (hSig : s.closedSignal = SettleState.unsettled) :
    (isClosedOrClosing s.writableState = true → applyTrigger s (Trigger.readEof o) = s) ∧
    (isClosedOrClosing s.writableState = false →
      (applyTrigger s (Trigger.readEof Outcome.ok)).closedSignal = SettleState.resolved ∧
      (applyTrigger s (Trigger.readEof Outcome.ok)).writableState = WriteState.closed ∧
      (applyTrigger s (Trigger.readEof (Outcome.err m))).closedSignal
          = SettleState.rejected m) := by
  constructor
  · intro hc
    simp [applyTrigger, hInst, maybeCloseWriteSide, hc]
  · intro hc
    refine ⟨?_, ?_, ?_⟩ <;>
      simp [applyTrigger, hInst, maybeCloseWriteSide, hc, hSig, settleReject, settleResolve]

/-- Witness for C8 at a concrete fresh socket. -/
theorem half_close_eof_behavior_witness :
    (applyTrigger sampleBase (Trigger.readEof Outcome.ok)).closedSignal
        = SettleState.resolved :=
  ((half_close_eof_behavior sampleBase Outcome.ok (bytes "boom") rfl rfl).2 rfl).1

/-- C9: with `allowHalfOpen = true`, `setupSocket` does not install the EOF
handler, so read-EOF changes nothing: the write half is not closed and the
closed-signal is not resolved. -/
theorem allow_half_open_eof_noop (opts : SocketOptions) (isSec : Bool)
    (dom : Option Bytes) (o : Outcome) (h : opts.allowHalfOpen = true) :
    (setupSocket (some opts) isSec dom).eofHandlerInstalled = false ∧
    applyTrigger (setupSocket (some opts) isSec dom) (Trigger.readEof o)
        = setupSocket (some opts) isSec dom := by
  have h1 : (setupSocket (some opts) isSec dom).eofHandlerInstalled = false := by
    simp [setupSocket, getAllowHalfOpen, h]
  exact ⟨h1, by simp [applyTrigger, h1]⟩

/-- Witness for C9 at a concrete half-open socket. -/
theorem allow_half_open_eof_noop_witness :
    applyTrigger (setupSocket (some sampleHalfOpenOpts) false (some (bytes "example.com")))
        (Trigger.readEof Outcome.ok)
      = setupSocket (some sampleHalfOpenOpts) false (some (bytes "example.com")) :=
  (allow_half_open_eof_noop sampleHalfOpenOpts false (some (bytes "example.com"))
    Outcome.ok rfl).2

/-- C10: in every reachable socket state, whenever the EOF handler is
installed (the only way `handleReadableEof` and `maybeCloseWriteSide` can
run), `getAllowHalfOpen(options)` is false — so the
`KJ_ASSERT(!getAllowHalfOpen(options))` in those two functions never
fires: `setupSocket` installs the handler only when `allowHalfOpen` is
false, no trigger mutates the options, and `startTls` only moves the
options out (making `getAllowHalfOpen` false). -/
theorem eof_assert_never_fires (s : SocketState) (h : Reachable s) :
    s.eofHandlerInstalled = true → getAllowHalfOpen s.options = false := by
  induction h with
  | setup opts isSec dom =>
    intro hInst
    simp only [setupSocket] at hInst ⊢
    simpa using hInst
  | step s t hr ih =>
    intro hInst
    obtain ⟨hopt, hinst⟩ := applyTrigger_preserves_config s t
    rw [hopt]
    exact ih (by rw [← hinst]; exact hInst)
  | tlsOldSocket s hr ih =>
    intro hInst
    simp [startTlsSyncOld, getAllowHalfOpen]
  | tlsNewSocket s hr ih =>
    intro hInst
    simp only [setupSocket] at hInst ⊢
    simpa using hInst

/-- Witness for C10 at a concrete reachable socket with the handler
installed. -/
theorem eof_assert_never_fires_witness :
    getAllowHalfOpen (setupSocket none false none).options = false :=
  eof_assert_never_fires (setupSocket none false none)
    (Reachable.setup none false none) rfl

end WorkerdSockets
